import Mathlib

/-!
Verification of the UI-NEXUS emulator-initialization core
(`android_world/emulator_init`): the orchestrator in `core.py`
(`EmulatorInitializer.initialize`), environment resolution in
`modules/base_configurator.py`, and the representative configurators
for contacts and calendar.
-/

namespace UINexus

/-! ## Orchestrator (core.py, `EmulatorInitializer.initialize`)

A configuration is modelled by its list of top-level keys (a Python dict:
unique keys; execution order is imposed by the orchestrator, not the dict).
The outcome of instantiating a configurator and calling `configure()` on a
given key is abstracted by an oracle `behave : String → ConfigureOutcome`:
`ok b` means `configure()` returned `b`, `exn` means the instantiation or
the call raised.  `envOk` abstracts whether `setup_environment()` succeeds
or raises. -/

/-- Outcome of `configurator_class(env, fragment)` followed by
`configurator.configure()` for one key: returned a boolean, or raised. -/
inductive ConfigureOutcome where
  | ok (b : Bool)
  | exn
deriving DecidableEq

/-- One run of the orchestrator: whether `setup_environment()` succeeds and
how each module key's configurator behaves when invoked. -/
structure ModuleRun where
  envOk : Bool
  behave : String → ConfigureOutcome

/-- The fixed, hand-ordered priority list `configuration_order` of
`EmulatorInitializer.initialize` (core.py lines 133-150), keys only. -/
def configurationOrder : List String :=
  ["datetime", "contacts", "sms", "calendar", "recipe", "tasks", "expense",
   "music", "joplin", "osmand", "audio_recorder", "markor", "files",
   "opentracks", "gallery", "system"]

/-- Loop state of the main `for config_key, configurator_class in
configuration_order` loop: `total_count`, `success_count`, and the trace of
keys for which a configurator was actually instantiated/invoked. -/
structure OrchState where
  attempted : Nat
  succeeded : Nat
  invoked : List String
deriving DecidableEq

/-- One iteration of the main loop (core.py lines 155-170): if the key is
present in the configuration, a configurator is instantiated and invoked
(recorded in `invoked`), `total_count` is incremented, and `success_count`
is incremented exactly when `configure()` returned true; any exception is
caught at this boundary and the loop continues. -/
def stepKey (run : ModuleRun) (cfg : List String) (st : OrchState)
    (key : String) : OrchState :=
  if key ∈ cfg then
    { attempted := st.attempted + 1,
      succeeded :=
        if run.behave key = ConfigureOutcome.ok true then st.succeeded + 1
        else st.succeeded,
      invoked := st.invoked ++ [key] }
  else st

/-- The main loop over the priority list. -/
def runRecognized (run : ModuleRun) (cfg : List String) : OrchState :=
  configurationOrder.foldl (stepKey run cfg) ⟨0, 0, []⟩

/-- `set(self.config.keys()) - {item[0] for item in configuration_order}`
(core.py line 173): the configuration keys not in the priority list. -/
def remainingKeys (cfg : List String) : List String :=
  cfg.filter (fun k => decide (k ∉ configurationOrder))

/-- Observable result of `initialize()`: the returned boolean, the final
`total_count` and `success_count`, the trace of configurator invocations,
and the full processing trace (invocations, then unrecognized keys). -/
structure InitResult where
  result : Bool
  attempted : Nat
  succeeded : Nat
  invoked : List String
  processed : List String
deriving DecidableEq

/-- `EmulatorInitializer.initialize` (core.py lines 122-188): bring up the
environment (on failure return false at once), walk the priority list,
then count every remaining unrecognized key as both attempted and
succeeded, and return `success_count == total_count`. -/
def initEmulator (run : ModuleRun) (cfg : List String) : InitResult :=
  if run.envOk then
    { result := (runRecognized run cfg).succeeded + (remainingKeys cfg).length
        == (runRecognized run cfg).attempted + (remainingKeys cfg).length,
      attempted := (runRecognized run cfg).attempted + (remainingKeys cfg).length,
      succeeded := (runRecognized run cfg).succeeded + (remainingKeys cfg).length,
      invoked := (runRecognized run cfg).invoked,
      processed := (runRecognized run cfg).invoked ++ remainingKeys cfg }
  else
    { result := false, attempted := 0, succeeded := 0,
      invoked := [], processed := [] }

/-- Keys of the priority list that are present in the configuration, in
priority order. -/
def presentRecognized (cfg : List String) : List String :=
  configurationOrder.filter (fun j => decide (j ∈ cfg))

/-- Present recognized keys whose configurator returned true. -/
def presentSucceeded (run : ModuleRun) (cfg : List String) : List String :=
  configurationOrder.filter
    (fun j => decide (j ∈ cfg) && decide (run.behave j = ConfigureOutcome.ok true))

theorem foldl_stepKey (run : ModuleRun) (cfg : List String) (l : List String)
    (st : OrchState) :
    l.foldl (stepKey run cfg) st =
      { attempted := st.attempted + (l.filter (fun j => decide (j ∈ cfg))).length,
        succeeded := st.succeeded +
          (l.filter (fun j => decide (j ∈ cfg) &&
            decide (run.behave j = ConfigureOutcome.ok true))).length,
        invoked := st.invoked ++ l.filter (fun j => decide (j ∈ cfg)) } := by
  induction l generalizing st with
  | nil => simp
  | cons k l ih =>
    rw [List.foldl_cons, ih]
    by_cases hk : k ∈ cfg
    · by_cases hb : run.behave k = ConfigureOutcome.ok true
      · simp [stepKey, hk, hb, List.filter_cons]
        omega
      · simp [stepKey, hk, hb, List.filter_cons]
        omega
    · simp [stepKey, hk, List.filter_cons]

theorem runRecognized_eq (run : ModuleRun) (cfg : List String) :
    runRecognized run cfg =
      { attempted := (presentRecognized cfg).length,
        succeeded := (presentSucceeded run cfg).length,
        invoked := presentRecognized cfg } := by
  unfold runRecognized presentRecognized presentSucceeded
  rw [foldl_stepKey]
  simp

theorem initEmulator_of_envOk (run : ModuleRun) (cfg : List String)
    (h : run.envOk = true) :
    initEmulator run cfg =
      { result := (presentSucceeded run cfg).length + (remainingKeys cfg).length
          == (presentRecognized cfg).length + (remainingKeys cfg).length,
        attempted := (presentRecognized cfg).length + (remainingKeys cfg).length,
        succeeded := (presentSucceeded run cfg).length + (remainingKeys cfg).length,
        invoked := presentRecognized cfg,
        processed := presentRecognized cfg ++ remainingKeys cfg } := by
  unfold initEmulator
  rw [runRecognized_eq, if_pos h]

/-! ## Environment resolution (modules/base_configurator.py)

`BaseConfigurator.__init__` structurally inspects the environment value:
`hasattr(env, 'base_env')`, then `hasattr(env, 'controller')`, else the
value itself is the controller.  A Python value relevant to this dispatch
is either `None` or an object that may or may not carry a `base_env`
attribute and a `controller` attribute (an attribute, when present, holds
another such value, possibly `None`). -/

/-- A Python environment value as seen by `BaseConfigurator.__init__`:
`pyNone` is `None`; `obj b c` is an object whose `base_env` attribute is
present iff `b = some _` (with value `b`) and whose `controller` attribute
is present iff `c = some _`. -/
inductive PyEnv where
  | pyNone : PyEnv
  | obj : Option PyEnv → Option PyEnv → PyEnv

/-- `hasattr(env, 'base_env')`. -/
def hasBaseEnv : PyEnv → Bool
  | .obj (some _) _ => true
  | _ => false

/-- `hasattr(env, 'controller')`. -/
def hasController : PyEnv → Bool
  | .obj _ (some _) => true
  | _ => false

/-- The structural dispatch of `BaseConfigurator.__init__` (lines 24-36):
returns `(self.env, self.env_controller)`.  If the input exposes
`base_env`, keep it as the rich handle and take its base controller; else
if it exposes `controller`, extract it; else the input itself is the
controller and there is no rich handle. -/
def resolveEnv (env : PyEnv) : Option PyEnv × PyEnv :=
  match env with
  | .obj (some b) _ => (some env, b)
  | .obj none (some c) => (some env, c)
  | _ => (none, env)

/-- Python truthiness of an environment value (`if not self.env_controller`):
`None` is falsy, a generic object is truthy. -/
def isTruthy : PyEnv → Bool
  | .pyNone => false
  | .obj _ _ => true

/-- `BaseConfigurator._ensure_environment` (lines 41-44): raise
`RuntimeError` when the resolved controller is falsy. -/
def ensureEnvironment (c : PyEnv) : Except String Unit :=
  if isTruthy c then Except.ok ()
  else Except.error "Environment not initialized. Call setup_environment() first."

/-! ## Contacts configurator (modules/contacts_configurator.py)

`ContactsConfigurator.configure` calls `_ensure_environment()` (which may
raise), then inside a try block optionally clears contacts and adds each
configured contact; `_add_contacts` attempts `contacts_utils.add_contact`
only for items whose `name` and `number` are both non-empty, catching each
item's exception individually.  The remote `add_contact` /
`clear_contacts` calls are abstracted by oracles saying whether they
raise. -/

/-- One entry of the `add_contacts` list; `contact.get('name', '')` and
`contact.get('number', '')` make absent fields the empty string. -/
structure ContactItem where
  name : String := ""
  number : String := ""
deriving DecidableEq

/-- The `contacts` configuration fragment (fields used by `configure`). -/
structure ContactsConfig where
  clear_contacts : Bool := false
  add_contacts : List ContactItem := []
  verify_contacts : Bool := false

/-- `if name and number:` — both strings non-empty. -/
def contactValid (c : ContactItem) : Bool :=
  decide (c.name ≠ "") && decide (c.number ≠ "")

/-- One iteration of the `_add_contacts` loop (lines 46-57), accumulating
`(attempted, added)`: a valid item is always attempted; it is added unless
`add_contact` raises (`addExn c = true`), in which case the exception is
caught, logged and the loop continues; an invalid item is skipped. -/
def addContactStep (addExn : ContactItem → Bool)
    (acc : List ContactItem × List ContactItem) (c : ContactItem) :
    List ContactItem × List ContactItem :=
  if contactValid c then
    if addExn c then (acc.1 ++ [c], acc.2)
    else (acc.1 ++ [c], acc.2 ++ [c])
  else acc

/-- `ContactsConfigurator._add_contacts`: returns the trace of attempted
insertions and the contacts actually added. -/
def addContacts (addExn : ContactItem → Bool) (items : List ContactItem) :
    List ContactItem × List ContactItem :=
  items.foldl (addContactStep addExn) ([], [])

/-- `ContactsConfigurator.configure` (lines 16-39): `_ensure_environment`
raises out of `configure` when the controller is falsy; an exception from
`clear_contacts` (when requested) is caught by the outer try and turns
into `return False`; otherwise the add loop runs (its per-item failures
are contained) and `configure` returns true together with the list of
added contacts (`_verify_contacts` catches its own exceptions). -/
def contactsConfigure (envCtrl : PyEnv) (cfg : ContactsConfig)
    (clearExn : Bool) (addExn : ContactItem → Bool) :
    Except String (Bool × List ContactItem) :=
  if isTruthy envCtrl = false then
    Except.error "Environment not initialized. Call setup_environment() first."
  else if cfg.clear_contacts && clearExn then
    Except.ok (false, [])
  else
    Except.ok (true, (addContacts addExn cfg.add_contacts).2)

theorem foldl_addContactStep (addExn : ContactItem → Bool)
    (items : List ContactItem) (acc : List ContactItem × List ContactItem) :
    items.foldl (addContactStep addExn) acc =
      (acc.1 ++ items.filter contactValid,
       acc.2 ++ items.filter (fun c => contactValid c && !(addExn c))) := by
  induction items generalizing acc with
  | nil => simp
  | cons c items ih =>
    rw [List.foldl_cons, ih]
    by_cases hv : contactValid c = true
    · by_cases he : addExn c = true
      · simp [addContactStep, hv, he, List.filter_cons]
      · simp [addContactStep, hv, he, List.filter_cons]
    · simp [addContactStep, hv, List.filter_cons]

theorem addContacts_eq (addExn : ContactItem → Bool) (items : List ContactItem) :
    addContacts addExn items =
      (items.filter contactValid,
       items.filter (fun c => contactValid c && !(addExn c))) := by
  unfold addContacts
  rw [foldl_addContactStep]
  simp

/-! ## Calendar configurator (modules/calendar_configurator.py)

`_add_specific_events` converts each declarative event item into a
`CalendarEvent` row.  Time fields may be ISO strings (parsed via
`datetime.fromisoformat(...).timestamp()`, abstracted by a `parse` oracle
that may fail, i.e. raise) or already Unix timestamps.
`generate_simple_calendar_weekly_repeat_rule` is external and abstracted
by the `weeklyRule` oracle. -/

/-- A JSON time value: an ISO string or a Unix timestamp. -/
inductive TimeVal where
  | iso (s : String)
  | ts (t : Int)
deriving DecidableEq

/-- Python truthiness of a time value (`if title and start_time:`,
`if end_time:`): the empty string and the integer 0 are falsy. -/
def timeValTruthy : TimeVal → Bool
  | .iso s => decide (s ≠ "")
  | .ts t => decide (t ≠ 0)

/-- `int(datetime.datetime.fromisoformat(s).timestamp())` for strings
(`parse s = none` models a raised parse exception), identity for values
that are already timestamps. -/
def toTimestamp (parse : String → Option Int) : TimeVal → Option Int
  | .iso s => parse s
  | .ts t => some t

/-- A JSON `repeat_interval` value: the strings compared against
`'weekly'`/`'daily'`, or a number. -/
inductive RepeatVal where
  | str (s : String)
  | num (n : Int)
deriving DecidableEq

/-- One entry of the `add_events` list (fields read by
`_add_specific_events` with their `event.get` defaults). -/
structure EventItem where
  title : String := ""
  description : String := ""
  location : String := ""
  start_time : Option TimeVal := none
  end_time : Option TimeVal := none
  duration_mins : Option Int := none
  repeat_interval : Option RepeatVal := none
  day_of_week : Option Int := none
deriving DecidableEq

/-- The repeat computation (lines 135-147): `'weekly'` with a weekday in
1..7 gives a week in seconds and the app-specific weekly rule; `'daily'`
gives a day in seconds; anything else gives no repeat. -/
def computeRepeat (weeklyRule : Int → Int) (rv : RepeatVal) (dow : Int) :
    Int × Int :=
  match rv with
  | .str s =>
    if s = "weekly" ∧ 1 ≤ dow ∧ dow ≤ 7 then (60 * 60 * 24 * 7, weeklyRule dow)
    else if s = "daily" then (60 * 60 * 24, 0)
    else (0, 0)
  | .num _ => (0, 0)

/-- The row inserted into the events table
(`sqlite_schema_utils.CalendarEvent` fields set at lines 175-183). -/
structure CalendarEvent where
  start_ts : Int
  end_ts : Int
  title : String
  description : String
  location : String
  repeat_interval : Int
  repeat_rule : Int
deriving DecidableEq

/-- Outcome of processing one declarative item: guard false (silently
skipped, lines 46-50 / 149), conversion raised (caught at item
granularity, logged, skipped), or converted to a value. -/
inductive ItemResult (α : Type) where
  | skipped : ItemResult α
  | failed : ItemResult α
  | converted : α → ItemResult α
deriving DecidableEq

/-- Conversion of one `add_events` item (lines 122-188): items whose title
or start time is falsy are skipped without attempting conversion; a parse
failure of a time string is caught per item (`failed`); otherwise the end
timestamp comes from `end_time` when that is truthy and from
`start_ts + duration_mins * 60` (default 30 minutes) when it is not. -/
def convertEvent (parse : String → Option Int) (weeklyRule : Int → Int)
    (e : EventItem) : ItemResult CalendarEvent :=
  let duration_mins := e.duration_mins.getD 30
  let rep := computeRepeat weeklyRule (e.repeat_interval.getD (.num 0))
    (e.day_of_week.getD 0)
  match e.start_time with
  | none => .skipped
  | some st =>
    if e.title ≠ "" ∧ timeValTruthy st then
      match toTimestamp parse st with
      | none => .failed
      | some start_ts =>
        match e.end_time with
        | some et =>
          if timeValTruthy et then
            match toTimestamp parse et with
            | none => .failed
            | some end_ts =>
              .converted ⟨start_ts, end_ts, e.title, e.description,
                e.location, rep.1, rep.2⟩
          else
            .converted ⟨start_ts, start_ts + duration_mins * 60, e.title,
              e.description, e.location, rep.1, rep.2⟩
        | none =>
          .converted ⟨start_ts, start_ts + duration_mins * 60, e.title,
            e.description, e.location, rep.1, rep.2⟩
    else .skipped

/-- The payload of a converted item, if any. -/
def resultEvent : ItemResult CalendarEvent → Option CalendarEvent
  | .converted ev => some ev
  | _ => none

/-- One iteration of the conversion loop (lines 122-188): a converted
event is appended to `calendar_events`; skipped and failed items leave the
accumulator unchanged and the loop continues. -/
def convertStep (parse : String → Option Int) (weeklyRule : Int → Int)
    (acc : List CalendarEvent) (e : EventItem) : List CalendarEvent :=
  match convertEvent parse weeklyRule e with
  | .converted ev => acc ++ [ev]
  | _ => acc

/-- The `calendar_events` list built by `_add_specific_events` before the
bulk insert. -/
def convertEvents (parse : String → Option Int) (weeklyRule : Int → Int)
    (items : List EventItem) : List CalendarEvent :=
  items.foldl (convertStep parse weeklyRule) []

theorem foldl_convertStep (parse : String → Option Int)
    (weeklyRule : Int → Int) (items : List EventItem)
    (acc : List CalendarEvent) :
    items.foldl (convertStep parse weeklyRule) acc =
      acc ++ items.filterMap (fun e => resultEvent (convertEvent parse weeklyRule e)) := by
  induction items generalizing acc with
  | nil => simp
  | cons e items ih =>
    rw [List.foldl_cons, ih]
    cases h : convertEvent parse weeklyRule e with
    | skipped => simp [convertStep, resultEvent, h]
    | failed => simp [convertStep, resultEvent, h]
    | converted ev => simp [convertStep, resultEvent, h]

theorem convertEvents_eq (parse : String → Option Int)
    (weeklyRule : Int → Int) (items : List EventItem) :
    convertEvents parse weeklyRule items =
      items.filterMap (fun e => resultEvent (convertEvent parse weeklyRule e)) := by
  unfold convertEvents
  rw [foldl_convertStep]
  simp

/-! ## Helper lemmas for the orchestrator claims -/

theorem presentRecognized_append_unknown (cfg : List String) (k : String)
    (hk : k ∉ configurationOrder) :
    presentRecognized (cfg ++ [k]) = presentRecognized cfg := by
  unfold presentRecognized
  apply List.filter_congr
  intro j hj
  have hne : j ≠ k := fun h => hk (h ▸ hj)
  simp [List.mem_append, hne]

theorem presentSucceeded_append_unknown (run : ModuleRun) (cfg : List String)
    (k : String) (hk : k ∉ configurationOrder) :
    presentSucceeded run (cfg ++ [k]) = presentSucceeded run cfg := by
  unfold presentSucceeded
  apply List.filter_congr
  intro j hj
  have hne : j ≠ k := fun h => hk (h ▸ hj)
  simp [List.mem_append, hne]

theorem remainingKeys_append_unknown (cfg : List String) (k : String)
    (hk : k ∉ configurationOrder) :
    remainingKeys (cfg ++ [k]) = remainingKeys cfg ++ [k] := by
  unfold remainingKeys
  rw [List.filter_append]
  simp [hk]

theorem presentRecognized_unknown_singleton :
    presentRecognized ["unknown_module"] = [] := by decide

theorem presentSucceeded_unknown_singleton (run : ModuleRun) :
    presentSucceeded run ["unknown_module"] = [] := by
  unfold presentSucceeded
  rw [List.filter_eq_nil_iff]
  intro a ha
  have hne : a ≠ "unknown_module" := by
    intro h
    subst h
    revert ha
    decide
  simp [hne]

theorem presentRecognized_subset {cfg : List String} {j : String}
    (h : j ∈ presentRecognized cfg) : j ∈ configurationOrder := by
  unfold presentRecognized at h
  exact List.mem_of_mem_filter h

/-! ## Claim theorems for the orchestrator -/

/-- C1: when environment bring-up succeeds, a top-level key outside the
fixed priority list increments both `attempted` and `succeeded` by exactly
one and no configurator is ever instantiated or invoked for it; in
particular a configuration holding only `"unknown_module"` makes
`initialize()` return true with `attempted = succeeded = 1` and an empty
invocation trace. -/
theorem C1_unknown_key_phantom_success (run : ModuleRun) (cfg : List String)
    (k : String) (henv : run.envOk = true) (hk : k ∉ configurationOrder) :
    (initEmulator run (cfg ++ [k])).attempted
        = (initEmulator run cfg).attempted + 1 ∧
    (initEmulator run (cfg ++ [k])).succeeded
        = (initEmulator run cfg).succeeded + 1 ∧
    (initEmulator run (cfg ++ [k])).invoked
        = (initEmulator run cfg).invoked ∧
    k ∉ (initEmulator run (cfg ++ [k])).invoked ∧
    initEmulator run ["unknown_module"] =
      { result := true, attempted := 1, succeeded := 1,
        invoked := [], processed := ["unknown_module"] } := by
  rw [initEmulator_of_envOk run (cfg ++ [k]) henv,
      initEmulator_of_envOk run cfg henv,
      initEmulator_of_envOk run ["unknown_module"] henv,
      presentRecognized_append_unknown cfg k hk,
      presentSucceeded_append_unknown run cfg k hk,
      remainingKeys_append_unknown cfg k hk,
      presentRecognized_unknown_singleton,
      presentSucceeded_unknown_singleton run]
  refine ⟨by simp; omega, by simp; omega, rfl, ?_, by decide⟩
  intro hmem
  exact hk (presentRecognized_subset hmem)

theorem C1_unknown_key_phantom_success_witness :
    (initEmulator
        { envOk := true, behave := fun _ => ConfigureOutcome.ok true }
        (["contacts"] ++ ["unknown_module"])).attempted
      = (initEmulator
          { envOk := true, behave := fun _ => ConfigureOutcome.ok true }
          ["contacts"]).attempted + 1 ∧
    initEmulator
        { envOk := true, behave := fun _ => ConfigureOutcome.ok true }
        ["unknown_module"] =
      { result := true, attempted := 1, succeeded := 1,
        invoked := [], processed := ["unknown_module"] } :=
  ⟨(C1_unknown_key_phantom_success
      { envOk := true, behave := fun _ => ConfigureOutcome.ok true }
      ["contacts"] "unknown_module" rfl (by decide)).1,
   (C1_unknown_key_phantom_success
      { envOk := true, behave := fun _ => ConfigureOutcome.ok true }
      ["contacts"] "unknown_module" rfl (by decide)).2.2.2.2⟩

/-- C2: if `setup_environment()` raises, `initialize()` returns false, no
configurator is ever instantiated or invoked, and the attempted count is
zero. -/
theorem C2_env_failure_aborts (run : ModuleRun) (cfg : List String)
    (h : run.envOk = false) :
    initEmulator run cfg =
      { result := false, attempted := 0, succeeded := 0,
        invoked := [], processed := [] } := by
  simp [initEmulator, h]

theorem C2_env_failure_aborts_witness :
    ({ envOk := false, behave := fun _ => ConfigureOutcome.exn } : ModuleRun).envOk
        = false ∧
    initEmulator
        { envOk := false, behave := fun _ => ConfigureOutcome.exn }
        ["contacts", "sms"] =
      { result := false, attempted := 0, succeeded := 0,
        invoked := [], processed := [] } :=
  ⟨rfl, C2_env_failure_aborts
    { envOk := false, behave := fun _ => ConfigureOutcome.exn }
    ["contacts", "sms"] rfl⟩

/-- C3: a configurator whose instantiation or `configure()` raises is
caught at the loop boundary: every applicable configurator is still
invoked in priority order, the failed key is counted in `attempted` but
not in `succeeded`, and the exception never escapes `initialize()`. -/
theorem C3_module_failure_isolated (run : ModuleRun) (cfg : List String)
    (k : String) (henv : run.envOk = true) (hmem : k ∈ cfg)
    (hord : k ∈ configurationOrder)
    (hexn : run.behave k = ConfigureOutcome.exn) :
    (initEmulator run cfg).invoked = presentRecognized cfg ∧
    k ∈ (initEmulator run cfg).invoked ∧
    (initEmulator run cfg).attempted =
      (presentRecognized cfg).length + (remainingKeys cfg).length ∧
    (initEmulator run cfg).succeeded =
      (presentSucceeded run cfg).length + (remainingKeys cfg).length ∧
    k ∉ presentSucceeded run cfg := by
  rw [initEmulator_of_envOk run cfg henv]
  refine ⟨rfl, ?_, rfl, rfl, ?_⟩
  · unfold presentRecognized
    simp [List.mem_filter, hord, hmem]
  · unfold presentSucceeded
    intro hcontra
    rw [List.mem_filter] at hcontra
    have := hcontra.2
    simp [hexn] at this

theorem C3_module_failure_isolated_witness :
    (initEmulator
        { envOk := true,
          behave := fun s =>
            if s = "contacts" then ConfigureOutcome.exn
            else ConfigureOutcome.ok true }
        ["contacts", "sms"]).invoked
      = presentRecognized ["contacts", "sms"] ∧
    "contacts" ∉ presentSucceeded
        { envOk := true,
          behave := fun s =>
            if s = "contacts" then ConfigureOutcome.exn
            else ConfigureOutcome.ok true }
        ["contacts", "sms"] :=
  ⟨(C3_module_failure_isolated _ ["contacts", "sms"] "contacts" rfl
      (by decide) (by decide) (by decide)).1,
   (C3_module_failure_isolated _ ["contacts", "sms"] "contacts" rfl
      (by decide) (by decide) (by decide)).2.2.2.2⟩

/-- C4: with environment bring-up succeeding, `initialize()` returns true
iff the succeeded count equals the attempted count; in particular it
returns true when every configurator for a present recognized key returns
true. -/
theorem C4_verdict_iff_counts (run : ModuleRun) (cfg : List String)
    (henv : run.envOk = true) :
    ((initEmulator run cfg).result = true ↔
      (initEmulator run cfg).succeeded
        = (initEmulator run cfg).attempted) ∧
    ((∀ j ∈ configurationOrder, j ∈ cfg →
        run.behave j = ConfigureOutcome.ok true) →
      (initEmulator run cfg).result = true) := by
  rw [initEmulator_of_envOk run cfg henv]
  constructor
  · simp
  · intro hall
    have hfe : presentSucceeded run cfg = presentRecognized cfg := by
      unfold presentSucceeded presentRecognized
      apply List.filter_congr
      intro j hj
      by_cases hjc : j ∈ cfg
      · simp [hjc, hall j hj hjc]
      · simp [hjc]
    simp [hfe]

theorem C4_verdict_iff_counts_witness :
    (initEmulator
        { envOk := true, behave := fun _ => ConfigureOutcome.ok true }
        ["datetime", "system"]).result = true :=
  (C4_verdict_iff_counts
      { envOk := true, behave := fun _ => ConfigureOutcome.ok true }
      ["datetime", "system"] rfl).2 (fun _ _ _ => rfl)

/-- C7: the configurators invoked are exactly those whose key is present,
taken from the fixed priority list in its hand-written order with
`system` last, and unrecognized keys are processed only after all
recognized keys. -/
theorem C7_fixed_priority_order (run : ModuleRun) (cfg : List String)
    (henv : run.envOk = true) :
    configurationOrder =
      ["datetime", "contacts", "sms", "calendar", "recipe", "tasks",
       "expense", "music", "joplin", "osmand", "audio_recorder", "markor",
       "files", "opentracks", "gallery", "system"] ∧
    (initEmulator run cfg).invoked =
      configurationOrder.filter (fun j => decide (j ∈ cfg)) ∧
    configurationOrder.getLast? = some "system" ∧
    (initEmulator run cfg).processed =
      (initEmulator run cfg).invoked ++ remainingKeys cfg := by
  rw [initEmulator_of_envOk run cfg henv]
  exact ⟨rfl, rfl, rfl, rfl⟩

theorem C7_fixed_priority_order_witness :
    (initEmulator
        { envOk := true, behave := fun _ => ConfigureOutcome.ok true }
        ["system", "calendar", "unknown_module"]).invoked =
      configurationOrder.filter
        (fun j => decide (j ∈ (["system", "calendar", "unknown_module"] : List String))) :=
  (C7_fixed_priority_order
      { envOk := true, behave := fun _ => ConfigureOutcome.ok true }
      ["system", "calendar", "unknown_module"] rfl).2.1

/-! ## Claim theorems for environment resolution -/

/-- C5: for every environment value, the resolved controller is either
truthy (and `_ensure_environment` accepts it) or the resolution surface
fails with the environment-not-ready error; a null input yields a null
controller that is rejected, never silently used. -/
theorem C5_resolution_no_silent_null (env : PyEnv) :
    ((isTruthy (resolveEnv env).2 = true ∧
      ensureEnvironment (resolveEnv env).2 = Except.ok ()) ∨
     ((resolveEnv env).2 = PyEnv.pyNone ∧
      ensureEnvironment (resolveEnv env).2 =
        Except.error "Environment not initialized. Call setup_environment() first.")) ∧
    resolveEnv PyEnv.pyNone = (none, PyEnv.pyNone) ∧
    ensureEnvironment (resolveEnv PyEnv.pyNone).2 =
      Except.error "Environment not initialized. Call setup_environment() first." := by
  refine ⟨?_, rfl, rfl⟩
  cases h : (resolveEnv env).2 with
  | pyNone => exact Or.inr ⟨rfl, rfl⟩
  | obj b c => exact Or.inl ⟨rfl, rfl⟩

/-- C6: environment resolution follows the fixed structural precedence of
`BaseConfigurator.__init__`: a `base_env` attribute wins, then a
`controller` attribute, otherwise the value itself is the controller with
no rich handle; exactly one of the three shapes applies to any input. -/
theorem C6_structural_precedence (env : PyEnv) :
    (∀ b r, env = PyEnv.obj (some b) r → resolveEnv env = (some env, b)) ∧
    (∀ c, env = PyEnv.obj none (some c) → resolveEnv env = (some env, c)) ∧
    (hasBaseEnv env = false → hasController env = false →
      resolveEnv env = (none, env)) ∧
    (hasBaseEnv env = true ∨
     (hasBaseEnv env = false ∧ hasController env = true) ∨
     (hasBaseEnv env = false ∧ hasController env = false)) := by
  cases env with
  | pyNone =>
    refine ⟨?_, ?_, ?_, ?_⟩ <;> simp [resolveEnv, hasBaseEnv, hasController]
  | obj b c =>
    cases b <;> cases c <;>
      refine ⟨?_, ?_, ?_, ?_⟩ <;>
        simp [resolveEnv, hasBaseEnv, hasController]

theorem C6_structural_precedence_witness :
    resolveEnv (PyEnv.obj (some PyEnv.pyNone) none) =
      (some (PyEnv.obj (some PyEnv.pyNone) none), PyEnv.pyNone) ∧
    resolveEnv (PyEnv.obj none (some (PyEnv.obj none none))) =
      (some (PyEnv.obj none (some (PyEnv.obj none none))), PyEnv.obj none none) ∧
    resolveEnv (PyEnv.obj none none) = (none, PyEnv.obj none none) :=
  ⟨(C6_structural_precedence _).1 PyEnv.pyNone none rfl,
   (C6_structural_precedence _).2.1 (PyEnv.obj none none) rfl,
   (C6_structural_precedence _).2.2.1 rfl rfl⟩

/-! ## Claim theorems for the configurators -/

/-- C8: a calendar event item with a non-empty title and a truthy start
time but no end time gets `end_ts = start_ts + duration_mins * 60`, with
`duration_mins` defaulting to 30; a 15-minute event yields
`end_ts - start_ts = 900` seconds. -/
theorem C8_end_ts_from_duration (parse : String → Option Int)
    (weeklyRule : Int → Int) (e : EventItem) (st : TimeVal) (ts : Int)
    (ht : e.title ≠ "") (hs : e.start_time = some st)
    (htr : timeValTruthy st = true) (hp : toTimestamp parse st = some ts)
    (he : e.end_time = none) :
    convertEvent parse weeklyRule e =
      ItemResult.converted
        { start_ts := ts,
          end_ts := ts + (e.duration_mins.getD 30) * 60,
          title := e.title, description := e.description,
          location := e.location,
          repeat_interval :=
            (computeRepeat weeklyRule (e.repeat_interval.getD (RepeatVal.num 0))
              (e.day_of_week.getD 0)).1,
          repeat_rule :=
            (computeRepeat weeklyRule (e.repeat_interval.getD (RepeatVal.num 0))
              (e.day_of_week.getD 0)).2 } ∧
    (ts + (e.duration_mins.getD 30) * 60) - ts = (e.duration_mins.getD 30) * 60 ∧
    (e.duration_mins = some 15 →
      (ts + (e.duration_mins.getD 30) * 60) - ts = 900) := by
  refine ⟨?_, by omega, ?_⟩
  · unfold convertEvent
    rw [hs]
    simp [ht, htr, hp, he]
  · intro h15
    rw [h15]
    simp

theorem C8_end_ts_from_duration_witness :
    convertEvent (fun _ => some 1704099600) (fun _ => 0)
        { title := "Standup",
          start_time := some (TimeVal.iso "2024-01-01T09:00:00"),
          duration_mins := some 15 } =
      ItemResult.converted
        { start_ts := 1704099600, end_ts := 1704100500,
          title := "Standup", description := "", location := "",
          repeat_interval := 0, repeat_rule := 0 } ∧
    (1704100500 : Int) - 1704099600 = 900 :=
  ⟨((C8_end_ts_from_duration (fun _ => some 1704099600) (fun _ => 0)
      { title := "Standup",
        start_time := some (TimeVal.iso "2024-01-01T09:00:00"),
        duration_mins := some 15 }
      (TimeVal.iso "2024-01-01T09:00:00") 1704099600
      (by decide) rfl (by decide) rfl rfl).1).trans (by decide),
   by decide⟩

/-- C9: explicit items are processed independently: a per-item insertion
or conversion failure is caught at item granularity, every remaining item
is still processed, and `configure()` can still return true despite such
failures; shown for the contacts add-loop and the calendar conversion
loop. -/
theorem C9_item_failures_isolated (envCtrl : PyEnv) (cfg : ContactsConfig)
    (clearExn : Bool) (addExn : ContactItem → Bool)
    (parse : String → Option Int) (weeklyRule : Int → Int)
    (events : List EventItem)
    (henv : isTruthy envCtrl = true)
    (hclear : (cfg.clear_contacts && clearExn) = false) :
    contactsConfigure envCtrl cfg clearExn addExn =
      Except.ok (true,
        cfg.add_contacts.filter (fun c => contactValid c && !(addExn c))) ∧
    (addContacts addExn cfg.add_contacts).1 =
      cfg.add_contacts.filter contactValid ∧
    convertEvents parse weeklyRule events =
      events.filterMap (fun e => resultEvent (convertEvent parse weeklyRule e)) := by
  refine ⟨?_, ?_, convertEvents_eq parse weeklyRule events⟩
  · simp [contactsConfigure, henv, hclear, addContacts_eq]
  · rw [addContacts_eq]

theorem C9_item_failures_isolated_witness :
    contactsConfigure (PyEnv.obj none none)
        { add_contacts := [⟨"Alice", "555-0100"⟩, ⟨"Bob", "555-0101"⟩] }
        false (fun c => c.name == "Alice") =
      Except.ok (true, [⟨"Bob", "555-0101"⟩]) ∧
    (addContacts (fun c => c.name == "Alice")
        [⟨"Alice", "555-0100"⟩, ⟨"Bob", "555-0101"⟩]).1 =
      [⟨"Alice", "555-0100"⟩, ⟨"Bob", "555-0101"⟩] ∧
    convertEvents (fun s => if s = "bad" then none else some 100) (fun _ => 0)
        [{ title := "Broken", start_time := some (TimeVal.iso "bad") },
         { title := "Fine", start_time := some (TimeVal.iso "good") }] =
      [{ start_ts := 100, end_ts := 100 + 30 * 60, title := "Fine",
         description := "", location := "",
         repeat_interval := 0, repeat_rule := 0 }] := by
  have h := C9_item_failures_isolated (PyEnv.obj none none)
    { add_contacts := [⟨"Alice", "555-0100"⟩, ⟨"Bob", "555-0101"⟩] }
    false (fun c => c.name == "Alice")
    (fun s => if s = "bad" then none else some 100) (fun _ => 0)
    [{ title := "Broken", start_time := some (TimeVal.iso "bad") },
     { title := "Fine", start_time := some (TimeVal.iso "good") }]
    rfl rfl
  exact ⟨h.1.trans (by rfl), h.2.1.trans (by decide), h.2.2.trans (by decide)⟩

/-- C10: items missing a required field (empty/absent contact name or
number; empty calendar title or absent start time) are silently skipped:
no insertion is attempted for them, they are not failures, and
`configure()` still returns true for a fragment made only of such
items. -/
theorem C10_required_field_missing_skipped (envCtrl : PyEnv)
    (cfg : ContactsConfig) (clearExn : Bool) (addExn : ContactItem → Bool)
    (parse : String → Option Int) (weeklyRule : Int → Int) (e : EventItem)
    (henv : isTruthy envCtrl = true)
    (hclear : cfg.clear_contacts = false)
    (hinvalid : ∀ c ∈ cfg.add_contacts, c.name = "" ∨ c.number = "")
    (he : e.title = "" ∨ e.start_time = none) :
    contactsConfigure envCtrl cfg clearExn addExn = Except.ok (true, []) ∧
    (addContacts addExn cfg.add_contacts).1 = [] ∧
    convertEvent parse weeklyRule e = ItemResult.skipped := by
  have hval : ∀ c ∈ cfg.add_contacts, contactValid c = false := by
    intro c hc
    rcases hinvalid c hc with h | h <;> simp [contactValid, h]
  have h1 : cfg.add_contacts.filter contactValid = [] :=
    List.filter_eq_nil_iff.mpr (fun c hc => by simp [hval c hc])
  have h2 : cfg.add_contacts.filter
      (fun c => contactValid c && !(addExn c)) = [] :=
    List.filter_eq_nil_iff.mpr (fun c hc => by simp [hval c hc])
  refine ⟨?_, ?_, ?_⟩
  · simp [contactsConfigure, henv, hclear, addContacts_eq, h2]
  · simp [addContacts_eq, h1]
  · rcases he with h | h
    · unfold convertEvent
      cases hst : e.start_time with
      | none => simp
      | some st => simp [h]
    · unfold convertEvent
      rw [h]

theorem C10_required_field_missing_skipped_witness :
    contactsConfigure (PyEnv.obj none none)
        { add_contacts := [⟨"", "555-0100"⟩, ⟨"Carol", ""⟩] }
        true (fun _ => false) =
      Except.ok (true, []) ∧
    (addContacts (fun _ => false) [⟨"", "555-0100"⟩, ⟨"Carol", ""⟩]).1 = [] ∧
    convertEvent (fun _ => some 0) (fun _ => 0)
        { title := "", start_time := some (TimeVal.ts 5) } =
      ItemResult.skipped :=
  C10_required_field_missing_skipped (PyEnv.obj none none)
    { add_contacts := [⟨"", "555-0100"⟩, ⟨"Carol", ""⟩] }
    true (fun _ => false) (fun _ => some 0) (fun _ => 0)
    { title := "", start_time := some (TimeVal.ts 5) }
    rfl rfl (by decide) (Or.inl rfl)

end UINexus
